import Mathlib

/-!
Verification development for the aigamingnews article pipeline.

The Python sources are shallowly embedded:
  * pure string manipulation (the tolerant score-reply parser of
    `rank_openai.process_batch`) becomes pure functions over `List Char`,
    mirroring Python string semantics (`str.strip`, `str.split`,
    `str.replace`, `re.findall`, `int(...)`, and negative list indexing);
  * external services (the OpenAI chat endpoint, the Feedly HTTP API,
    the token-refresh endpoint) become explicit oracles / environments;
    a call's model name, temperature and token bounds are absorbed by the
    oracle, while everything the Python code computes from the response is
    embedded;
  * the unbounded `while True:` paging loop of `feedly.get_feedly_articles`
    becomes a fuel-indexed step function whose result records the trace of
    issued page requests (their continuation parameters) and the number of
    token refreshes performed.
-/

/-! ### Python string primitives -/

/-- Python `str.strip()` whitespace test (ASCII portion). -/
def isPySpace (c : Char) : Bool :=
  c == ' ' || c == '\t' || c == '\n' || c == '\r' || c == '\x0b' || c == '\x0c'

/-- Python `str.strip()` on a character list. -/
def pyStrip (cs : List Char) : List Char :=
  ((cs.dropWhile isPySpace).reverse.dropWhile isPySpace).reverse

/-- Python `str.strip()` on a `String`. -/
def pyStripStr (s : String) : String :=
  ⟨pyStrip s.data⟩

/-- Python `str.split(sep)` for a one-character separator: splits at every
occurrence, keeping empty pieces (`"".split(c) == [""]`). -/
def splitOnChar (sep : Char) : List Char → List (List Char)
  | [] => [[]]
  | c :: rest =>
    match splitOnChar sep rest with
    | h :: t => if c == sep then [] :: h :: t else (c :: h) :: t
    | [] => if c == sep then [[], []] else [[c]]

/-- Python `s.replace("Article", "")`: remove every (non-overlapping,
left-to-right) occurrence of `"Article"`. -/
def replaceArticle : List Char → List Char
  | 'A' :: 'r' :: 't' :: 'i' :: 'c' :: 'l' :: 'e' :: rest => replaceArticle rest
  | c :: rest => c :: replaceArticle rest
  | [] => []

/-- Numeric value of a run of ASCII digits. -/
def digitsVal (cs : List Char) : Nat :=
  cs.foldl (fun a c => 10 * a + (c.toNat - 48)) 0

/-- The maximal runs of ASCII digits occurring in `cs`, in order
(`re.findall(r"\d+", s)`). -/
def splitRuns : List Char → List (List Char)
  | [] => []
  | c :: rest =>
    if c.isDigit then
      match rest, splitRuns rest with
      | r :: _, run :: more => if r.isDigit then (c :: run) :: more else [c] :: run :: more
      | _, _ => [[c]]
    else splitRuns rest

/-- Runs `re.findall(r"\d+", s)` followed by numeric interpretation. -/
def digitRuns (cs : List Char) : List Nat :=
  (splitRuns cs).map digitsVal

/-- Python `int(s)` on a string: optional surrounding whitespace, an optional
sign, then a non-empty digit run; anything else raises `ValueError`,
modelled as `none`.  (Underscore digit separators, which CPython also
accepts, never occur in the inputs this pipeline handles and are not
modelled.) -/
def pyInt (cs : List Char) : Option Int :=
  match pyStrip cs with
  | [] => none
  | c :: rest =>
    if c == '-' then
      if !rest.isEmpty && rest.all Char.isDigit then some (-(digitsVal rest : Int)) else none
    else if c == '+' then
      if !rest.isEmpty && rest.all Char.isDigit then some ((digitsVal rest : Int)) else none
    else
      if (c :: rest).all Char.isDigit then some ((digitsVal (c :: rest) : Int)) else none

/-- Python list item assignment `l[i] = v`: a negative index wraps around by
adding `len(l)`; an index out of range after that raises `IndexError`,
modelled as `none`. -/
def pyIdx (n : Nat) (i : Int) : Int :=
  if i < 0 then i + n else i

def pyListSet {α : Type} (l : List α) (i : Int) (v : α) : Option (List α) :=
  if 0 ≤ pyIdx l.length i ∧ pyIdx l.length i < (l.length : Int) then
    some (l.set (pyIdx l.length i).toNat v)
  else none

/-! ### The tolerant score-reply parser (`rank_openai.process_batch`, lines 165-182)

For each reply line containing a colon the code runs

    idx, score = line.split(':')
    idx = int(idx.strip().replace("Article", "")) - 1
    numbers = re.findall(r'\d+', score.strip())
    if numbers:
        score = int(numbers[0])
        if 1 <= score <= 10:
            scores[idx] = score

inside `try: ... except (ValueError, IndexError): continue`.  The only
statement that touches `scores` is the indexed assignment, so the embedding
first extracts, per line, the optional (index, value) pair and then performs
the Python list assignment. -/

/-- Per-line extraction: `some (idx, v)` when the line would reach
`scores[idx] = v`, `none` when the line is skipped (no colon, more or fewer
than two colon-separated parts, unparseable index, no digits in the value
part, or value outside `[1, 10]`). -/
def lineParse (line : List Char) : Option (Int × Nat) :=
  if line.contains ':' then
    match splitOnChar ':' line with
    | [a, b] =>
      match pyInt (replaceArticle (pyStrip a)) with
      | none => none
      | some nIdx =>
        match digitRuns (pyStrip b) with
        | [] => none
        | v :: _ => if 1 ≤ v ∧ v ≤ 10 then some (nIdx - 1, v) else none
    | _ => none
  else none

/-- Process one reply line against the score list (the body of the `for`
loop in `process_batch`). -/
def processLine (scores : List (Option Nat)) (line : List Char) : List (Option Nat) :=
  match lineParse line with
  | none => scores
  | some (idx, v) =>
    match pyListSet scores idx (some v) with
    | some scores2 => scores2
    | none => scores

/-- The whole reply-parsing stage of `process_batch`: start from
`[None] * n`, fold the lines of `reply.strip().split('\n')`. -/
def parseScores (reply : String) (n : Nat) : List (Option Nat) :=
  (splitOnChar '\n' (pyStrip reply.data)).foldl processLine (List.replicate n none)

/-! ### Data model

One DataFrame row of the pipeline (`main.extract_article_data` plus the
columns added later).  `Summary`/`Content` are `Option String` (`none` is
pandas `NaN`/`None`); `GPT_Pertinence` (the RelevanceScore) and
`Bullet_Points` start absent.  Only the fields the ranking/enrichment code
reads are carried; the inert presentation fields (URL, Author, dates,
keywords, entities, topic scores) are omitted. -/

structure Row where
  Title : String
  Summary : Option String
  Content : Option String
  GPT_Pertinence : Option Nat := none
  Bullet_Points : Option String := none
deriving Repr, DecidableEq

/-- The chat-completion endpoint used for scoring, as an oracle: the call
sequence number (= the 1-based batch number, the calls being strictly
sequential) and the prompt map to either the reply text or the message of a
raised exception.  Model name, temperature and `max_tokens` are constants
absorbed by the oracle. -/
def ScoringOracle : Type := Nat → String → Except String String

/-- The chat-completion endpoint used for bullet-point generation, as an
oracle over the (title, content) pair of the user message; the constant
system message, model and sampling options are absorbed by the oracle. -/
def BulletOracle : Type := String → Option String → Except String String

/-! ### `rank_openai` constants and prompt construction -/

/-- The source constant `rank_openai.PROMPT_TEMPLATE` (verbatim). -/
def PROMPT_TEMPLATE : String :=
"
You are curating daily tech news for the founder of a €200M AI Gaming fund to help him grow his thought leadership on LinkedIn.

For each article summary, assign a **relevance score from 1 to 10**, based on the following logic:

---

🎯 Relevance Rules

1. **AI is required to score well.**
   - Articles that do not focus on AI should receive low scores (1–3), even if they talk about gaming, Web3, or hardware.

2. **AI + Gaming = top priority.**
   - Articles where AI is applied to games (design, prototyping, monetization, NPCs, tools, studios…) should get the highest scores (9–10).

3. **AI Agents = strong bonus.**
   - Strategic or technical advances in AI agents — even outside of gaming — can score high (8–10).
   - Commentary or business use of agents = 6–7.

4. **Generic AI without gaming or agents = capped at 6.**
   - Infrastructure, LLMs, AI in healthcare, marketing, etc. should **not exceed 6**, even if well written.
   - Use **6** for solid articles with limited direct relevance.

5. **Product / Tech announcements = evaluate for depth.**
   - If mostly marketing (e.g. chip launch, vague AI claims) → score low (4–6).
   - If showing real architecture, benchmarks, or demo → score higher (7–9).

6. **Web3 or Crypto = important but capped.**
   - AI applied to Web3 (e.g. crypto agents, blockchain gaming) is relevant, but should **never exceed 8/10**.
   - Apply a **–1 penalty** to strong articles that are mostly Web3-driven to keep them out of the top stories.

7. **Highlight strategic breakthroughs.**
   - Open protocols, game-changing frameworks (e.g. Google Agent2Agent) may deserve a 10, even outside gaming — if they shape the future of AI or agents.

8. **Strategic reports or reflections = valuable.**
   - Score **high (8–10)** if the article is:
     - A major industry report (e.g. Stanford AI Index)
     - A structured reflection on how AI impacts creation, ethics, design, or future interactions
   - Score lower (4–7) if it’s more opinion-based or lacks original depth
---

🧠 Scoring Scale:

- **10** = AI + Gaming + strategic depth OR major agentic breakthrough
- **8–9** = AI + Gaming (less deep) OR strong agent article OR insightful AI use case
- **6–7** = Agent business news, AI in Web3, product with real depth
- **4–5** = Generic AI product/infra news, limited insight
- **1–3** = No real AI relevance (even if gaming, Web3, or flashy)

🔒 **Web3 articles cannot score higher than 8**, regardless of content.

---

💬 Output Format:
Article 1: 7  
Article 2: 3  
...

Ask yourself: *Would this make a strong LinkedIn post for someone leading a €200M AI Gaming fund, focusing on the future of AI in gaming and interactivity?*
"

/-- The per-article text used in the scoring prompt:
`row.Summary.strip() if isinstance(row.Summary, str) and row.Summary.strip() else row.Title.strip()`. -/
def rowText (r : Row) : String :=
  match r.Summary with
  | some s => if pyStripStr s ≠ "" then pyStripStr s else pyStripStr r.Title
  | none => pyStripStr r.Title

/-- Embeds `rank_openai.format_prompt`: the rubric followed by the 1-based indexed
article texts. -/
def format_prompt (rows : List Row) : String :=
  rows.enum.foldl
    (fun acc p =>
      acc ++ "\n---\nArticle " ++ toString (p.1 + 1) ++ ":\n" ++ rowText p.2 ++ "\n")
    PROMPT_TEMPLATE

/-- Embeds `rank_openai.ArticleBatch`. -/
structure ArticleBatch where
  summaries : List (Option String)
  start_index : Nat
  end_index : Nat
  batch_number : Nat
  total_batches : Nat
  prompt : String

/-! ### Scoring (`rank_openai.process_batch` / `batch_gpt_scoring`) -/

/-- Embeds `rank_openai.process_batch`: one API call; on success the reply is run
through the tolerant parser, on any exception an `OpenAIError` naming the
batch number is raised (modelled as `Except.error` carrying the message). -/
def process_batch (oracle : ScoringOracle) (batch : ArticleBatch) :
    Except String (List (Option Nat)) :=
  match oracle batch.batch_number batch.prompt with
  | .error e => .error ("Failed to process batch " ++ toString batch.batch_number ++ ": " ++ e)
  | .ok reply => .ok (parseScores reply batch.summaries.length)

/-- Computes `math.ceil(len(df) / batch_size)` for a positive `batch_size`. -/
def n_batchesOf (df : List Row) (batch_size : Nat) : Nat :=
  (df.length + batch_size - 1) / batch_size

/-- The slice `df.iloc[start_idx:end_idx]` for batch `b`. -/
def batchRows (df : List Row) (batch_size b : Nat) : List Row :=
  (df.drop (b * batch_size)).take (min ((b + 1) * batch_size) df.length - b * batch_size)

/-- The `ArticleBatch` built for 0-based batch `b` in `batch_gpt_scoring`. -/
def mkBatch (df : List Row) (column : Row → Option String) (batch_size nb b : Nat) :
    ArticleBatch :=
  { summaries := (batchRows df batch_size b).map column
    start_index := b * batch_size
    end_index := min ((b + 1) * batch_size) df.length
    batch_number := b + 1
    total_batches := nb
    prompt := format_prompt (batchRows df batch_size b) }

/-- Merging one batch's scores into the global list:
`for idx, score in enumerate(batch_scores): if score is not None: scores[start_idx + idx] = score`. -/
def mergeScores (scores : List (Option Nat)) (start : Nat) (bscores : List (Option Nat)) :
    List (Option Nat) :=
  bscores.enum.foldl
    (fun acc p =>
      match p.2 with
      | some v => acc.set (start + p.1) (some v)
      | none => acc)
    scores

/-- The batch loop of `batch_gpt_scoring`
(`for b in range(n_batches): ...`), structured over the number `rem` of
batches still to process, with `b` the 0-based index of the next batch.
The first raised `OpenAIError` aborts the loop (the `time.sleep` throttle
between batches has no observable effect and is not modelled). -/
def runBatches (oracle : ScoringOracle) (df : List Row) (column : Row → Option String)
    (batch_size nb : Nat) : Nat → Nat → List (Option Nat) → Except String (List (Option Nat))
  | 0, _, scores => .ok scores
  | rem + 1, b, scores =>
    match process_batch oracle (mkBatch df column batch_size nb b) with
    | .error e => .error e
    | .ok bscores =>
      runBatches oracle df column batch_size nb rem (b + 1)
        (mergeScores scores (b * batch_size) bscores)

/-! ### `df.sort_values('GPT_Pertinence', ascending=False)`

pandas `nargsort`: null keys are masked out and appended at the end in
original order; for a descending sort the non-null block is reversed,
argsorted ascending, and the resulting indexer reversed again.  The argsort
kernel is numpy `kind='quicksort'` (introsort) whose tie order is not
specified; numpy runs a plain insertion sort on subarrays of at most 16
elements, and the insertion-sort kernel is what is embedded here, so this
definition is bit-faithful for at most 16 non-null keys and
implementation-defined beyond that (no theorem below depends on it). -/

/-- Stable ascending insertion of an (original-position, key) pair. -/
def insertKey (p : Nat × Nat) : List (Nat × Nat) → List (Nat × Nat)
  | [] => [p]
  | q :: t => if p.2 ≤ q.2 then p :: q :: t else q :: insertKey p t

/-- Stable ascending argsort of (original-position, key) pairs. -/
def argsortAsc (l : List (Nat × Nat)) : List (Nat × Nat) :=
  l.foldr insertKey []

/-- pandas `nargsort(keys, ascending=False, na_position='last')` as an
index permutation. -/
def nargsortDesc (keys : List (Option Nat)) : List Nat :=
  let keyed := keys.enum
  let non_nans := (keyed.filter (fun p => p.2.isSome)).map (fun p => (p.1, p.2.getD 0))
  let nan_idx := (keyed.filter (fun p => p.2.isNone)).map Prod.fst
  ((argsortAsc non_nans.reverse).map Prod.fst).reverse ++ nan_idx

/-- Reorder the rows of `df` by the `nargsortDesc` indexer over the
`GPT_Pertinence` column. -/
def sort_values_desc (df : List Row) : List Row :=
  (nargsortDesc (df.map (fun r => r.GPT_Pertinence))).filterMap (fun i => df.get? i)

/-- Embeds `rank_openai.batch_gpt_scoring`.  The whole body sits in a
`try: ... except Exception as e: print(...); return df`, so the function
never raises: the result is the (possibly updated and sorted) DataFrame
together with the message of the swallowed exception, if any.  A zero
`batch_size` raises `ZeroDivisionError` inside the `try`.  On the success
path the scores are written into the column and the frame is sorted; on a
batch failure the frame is returned exactly as passed in — the scores
gathered before the failing batch are discarded with the local `scores`
list. -/
def batch_gpt_scoring (oracle : ScoringOracle) (df : List Row)
    (column : Row → Option String) (batch_size : Nat := 15) : List Row × Option String :=
  if batch_size = 0 then (df, some "division by zero")
  else
    match runBatches oracle df column batch_size (n_batchesOf df batch_size)
        (n_batchesOf df batch_size) 0 (List.replicate df.length none) with
    | .error e => (df, some e)
    | .ok scores =>
      (sort_values_desc (df.zipWith (fun r s => { r with GPT_Pertinence := s }) scores), none)

/-! ### Enrichment (`rank_openai.generate_bullet_points_summary` /
`generate_bullet_points_for_top_articles`) -/

/-- Embeds `rank_openai.generate_bullet_points_summary`: on success the stripped
reply, on any exception the literal sentinel text (the function catches the
exception, logs, and returns `"Error generating summary"` — it never
raises). -/
def generate_bullet_points_summary (oracle : BulletOracle) (title : String)
    (content : Option String) : String :=
  match oracle title content with
  | .ok reply => pyStripStr reply
  | .error _ => "Error generating summary"

/-- pandas object-dtype `series > 7`: `None`/`NaN` compares `False`. -/
def pyGtNat (x : Option Nat) (k : Nat) : Bool :=
  match x with
  | none => false
  | some v => k < v

/-- Python truthiness of the content cell (`if not content:`): `None` and
the empty string are falsy. -/
def pyTruthyStr (x : Option String) : Bool :=
  match x with
  | none => false
  | some s => s ≠ ""

/-- Resolves `content = row[column]; if not content: content = row["Summary"]`. -/
def resolveContent (column : Row → Option String) (r : Row) : Option String :=
  if pyTruthyStr (column r) then column r else r.Summary

/-- Positions (0-based, starting at `i`) of the rows with
`GPT_Pertinence > 7` — the row-label set of `df[df['GPT_Pertinence'] > 7]`. -/
def qualIdx : Nat → List Row → List Nat
  | _, [] => []
  | i, r :: rest =>
    if pyGtNat r.GPT_Pertinence 7 then i :: qualIdx (i + 1) rest else qualIdx (i + 1) rest

/-- Row labels of `df[df['GPT_Pertinence'] > 7].head(5)` (the source
hard-codes `5`; its `top_n` parameter is only used in a log line). -/
def topIdxOf (df : List Row) : List Nat :=
  (qualIdx 0 df).take 5

/-- The enriched replacement of a selected row
(`df.at[idx, 'Bullet_Points'] = bullet_points`). -/
def enrichRow (oracle : BulletOracle) (column : Row → Option String) (r : Row) : Row :=
  let bullet_points := generate_bullet_points_summary oracle r.Title (resolveContent column r)
  { r with Bullet_Points := some bullet_points }

/-- The `for idx, row in top_articles.iterrows()` loop, walking the frame
positionally; rows whose label is in `top` are enriched in place.  (The
loop's inner `except` is unreachable here: `generate_bullet_points_summary`
never raises and the field reads are total.) -/
def enrichGo (oracle : BulletOracle) (column : Row → Option String) (top : List Nat) :
    Nat → List Row → List Row
  | _, [] => []
  | i, r :: rest =>
    (if i ∈ top then enrichRow oracle column r else r) :: enrichGo oracle column top (i + 1) rest

/-- Embeds `rank_openai.generate_bullet_points_for_top_articles`. -/
def generate_bullet_points_for_top_articles (oracle : BulletOracle) (df : List Row)
    (column : Row → Option String) : List Row :=
  enrichGo oracle column (topIdxOf df) 0 df

/-- Positions (0-based, starting at `i`) of the rows carrying a
`Bullet_Points` value — used to state which articles the enrichment stage
populated. -/
def bulletIdx : Nat → List Row → List Nat
  | _, [] => []
  | i, r :: rest =>
    if r.Bullet_Points.isSome then i :: bulletIdx (i + 1) rest else bulletIdx (i + 1) rest

/-! ### Feed fetch (`feedly.get_feedly_articles` / `refresh_access_token`)

The `while True:` loop is embedded as a fuel-indexed recursion over an
environment that fixes, per call index, the stream-endpoint response and
the token-refresh outcome.  `time.time()` is modelled as a constant `now`
for the duration of the fetch (no claim depends on the clock advancing).
The result records, besides the article accumulator and batch counter of
the source, the trace of issued page requests (the `continuation` parameter
each request was issued with — `none` on the first page, where the code
omits the parameter) and how many times `refresh_access_token` was
called. -/

/-- The exceptions that can escape `get_feedly_articles` (which re-raises
whatever it catches): the module's own `FeedlyAPIError` (raised only by
`refresh_access_token`) or the `requests.exceptions.HTTPError` produced by
`response.raise_for_status()`. -/
inductive PyError where
  | feedlyAPIError (msg : String)
  | httpError (status : Nat)
deriving Repr, DecidableEq

/-- One response of the `/streams/contents` endpoint, as the code reads it:
status code, `data.get('items', [])` (articles as opaque ids) and
`data.get('continuation')`. -/
structure HttpResponse where
  status : Nat
  items : List Nat
  contToken : Option String
deriving Repr, DecidableEq

/-- The external world of one fetch: `pages n` is the response to the
`n`-th issued stream request, `refreshResult n` the outcome of the `n`-th
call to `refresh_access_token` (the new `access_token, token_expiry` pair,
with the provider's `expires_in` arithmetic absorbed), `now` the clock. -/
structure FeedEnv where
  pages : Nat → HttpResponse
  refreshResult : Nat → Except String (String × Nat)
  now : Nat
  accessToken0 : String
  tokenExpiry0 : Nat

/-- Outcome of a fetch run: normal return, escaped exception, or fuel
exhausted (the source loop would still be running).  All constructors carry
the request trace and the refresh count. -/
inductive FetchResult where
  | ok (articles : List Nat) (batches : Nat) (reqLog : List (Option String)) (nRefresh : Nat)
  | err (e : PyError) (reqLog : List (Option String)) (nRefresh : Nat)
  | outOfFuel (reqLog : List (Option String)) (nRefresh : Nat)
deriving Repr, DecidableEq

/-- Prepend one issued request (its continuation parameter) to the trace. -/
def FetchResult.consLog (c : Option String) : FetchResult → FetchResult
  | .ok a b L r => .ok a b (c :: L) r
  | .err e L r => .err e (c :: L) r
  | .outOfFuel L r => .outOfFuel (c :: L) r

/-- Account for `k` further calls to `refresh_access_token`. -/
def FetchResult.addRefresh (k : Nat) : FetchResult → FetchResult
  | .ok a b L r => .ok a b L (r + k)
  | .err e L r => .err e L (r + k)
  | .outOfFuel L r => .outOfFuel L (r + k)

/-- Embeds `feedly.refresh_access_token`: on provider failure it raises
`FeedlyAPIError(f"Failed to refresh token: {e}")`. -/
def refresh_access_token (env : FeedEnv) (refIdx : Nat) : Except PyError (String × Nat) :=
  match env.refreshResult refIdx with
  | .ok te => .ok te
  | .error e => .error (.feedlyAPIError ("Failed to refresh token: " ++ e))

/-- Python truthiness of `data.get('continuation')` (`if not continuation:
break` and `if continuation:` both test it): absent or empty string. -/
def contFalsy : Option String → Bool
  | none => true
  | some s => s == ""

/-- The check `if time.time() >= token_expiry:` refreshing proactively at the top of the
loop body; returns the (possibly new) token and expiry, the next refresh
index, and how many refresh calls were made (0 or 1) — or the escaped
`FeedlyAPIError`. -/
def proactiveRefresh (env : FeedEnv) (refIdx : Nat) (token : String) (expiry : Nat) :
    Except PyError (String × Nat × Nat × Nat) :=
  if env.now ≥ expiry then
    match refresh_access_token env refIdx with
    | .error e => .error e
    | .ok (t, exp) => .ok (t, exp, refIdx + 1, 1)
  else .ok (token, expiry, refIdx, 0)

/-- The rest of one `while True:` iteration, after the proactive-refresh
check: issue the page request; on 401 refresh reactively and `continue`
with the *same* continuation token; otherwise `raise_for_status()`, extend
the accumulator, and either `break` (falsy continuation) or continue with
the new token.  `next` is the remainder of the loop. -/
def feedPageStep (env : FeedEnv)
    (next : Nat → Nat → String → Nat → List Nat → Option String → Nat → FetchResult)
    (reqIdx refIdx : Nat) (token : String) (expiry : Nat) (acc : List Nat)
    (cont : Option String) (bc : Nat) : FetchResult :=
  let resp := env.pages reqIdx
  if resp.status = 401 then
    match refresh_access_token env refIdx with
    | .error e => FetchResult.consLog cont (.err e [] 1)
    | .ok (t, exp) =>
      FetchResult.addRefresh 1
        (FetchResult.consLog cont (next (reqIdx + 1) (refIdx + 1) t exp acc cont bc))
  else if 400 ≤ resp.status ∧ resp.status < 600 then
    -- `response.raise_for_status()` raises `requests.HTTPError`
    .err (.httpError resp.status) [cont] 0
  else
    let acc2 := acc ++ resp.items
    if contFalsy resp.contToken then .ok acc2 (bc + 1) [cont] 0
    else
      FetchResult.consLog cont
        (next (reqIdx + 1) refIdx token expiry acc2 resp.contToken (bc + 1))

/-- The loop of `get_feedly_articles`, one fuel unit per iteration of
`while True:`.  Arguments after the fuel: index of the next stream request,
index of the next refresh call, `access_token`, `token_expiry`,
`all_articles`, `continuation`, `batch_count`. -/
def get_feedly_articles_loop (env : FeedEnv) :
    Nat → Nat → Nat → String → Nat → List Nat → Option String → Nat → FetchResult
  | 0, _, _, _, _, _, _, _ => .outOfFuel [] 0
  | fuel + 1, reqIdx, refIdx, token, expiry, acc, cont, bc =>
    match proactiveRefresh env refIdx token expiry with
    | .error e => .err e [] 1
    | .ok (token2, expiry2, refIdx2, k) =>
      FetchResult.addRefresh k
        (feedPageStep env (get_feedly_articles_loop env fuel) reqIdx refIdx2 token2 expiry2
          acc cont bc)

/-- Embeds `feedly.get_feedly_articles` for a given fuel bound on loop
iterations. -/
def get_feedly_articles (env : FeedEnv) (fuel : Nat) : FetchResult :=
  get_feedly_articles_loop env fuel 0 0 env.accessToken0 env.tokenExpiry0 [] none 0

/-! ### Concrete instances used by witnesses and counterexamples -/

/-- Two unscored articles. -/
def dfC1 : List Row :=
  [{ Title := "a", Summary := some "sa", Content := some "ca" },
   { Title := "b", Summary := some "sb", Content := some "cb" }]

/-- Scoring oracle whose first call succeeds (scoring article 1 with 9) and
whose second call raises. -/
def oracleC1 : ScoringOracle :=
  fun i _ => if i = 1 then .ok "Article 1: 9" else .error "boom"

/-- One article already scored 9, unenriched. -/
def df6 : List Row :=
  [{ Title := "t", Summary := some "s", Content := some "c", GPT_Pertinence := some 9 }]

/-- Bullet oracle that always raises. -/
def oracleFail6 : BulletOracle := fun _ _ => .error "api down"

/-- Bullet oracle that always succeeds. -/
def oracleOk5 : BulletOracle := fun t _ => .ok ("points for " ++ t)

/-- Three scored articles: two qualifiers (9 and 8) and one below the
threshold. -/
def df5 : List Row :=
  [{ Title := "x", Summary := some "sx", Content := some "cx", GPT_Pertinence := some 9 },
   { Title := "y", Summary := some "sy", Content := some "cy", GPT_Pertinence := some 4 },
   { Title := "z", Summary := some "sz", Content := none, GPT_Pertinence := some 8 }]

/-- Two successful pages: the first carries a continuation token, the
second none. -/
def envC7w : FeedEnv :=
  { pages := fun i => if i = 0 then ⟨200, [10, 11], some "c0"⟩ else ⟨200, [12], none⟩
    refreshResult := fun _ => .ok ("tok", 100)
    now := 0
    accessToken0 := "a0"
    tokenExpiry0 := 100 }

/-- A first page whose response carries an *empty-string* continuation
token (present, not omitted) — a second page would be available. -/
def envC7x : FeedEnv :=
  { pages := fun i => if i = 0 then ⟨200, [10], some ""⟩ else ⟨200, [11], none⟩
    refreshResult := fun _ => .ok ("tok", 100)
    now := 0
    accessToken0 := "a0"
    tokenExpiry0 := 100 }

/-- Every stream request is answered 401 while every token refresh
succeeds (returning a not-yet-expired credential). -/
def env401 : FeedEnv :=
  { pages := fun _ => ⟨401, [], none⟩
    refreshResult := fun _ => .ok ("fresh", 100)
    now := 0
    accessToken0 := "a0"
    tokenExpiry0 := 100 }

/-- The first stream request fails with a plain server error. -/
def env500 : FeedEnv :=
  { pages := fun _ => ⟨500, [], none⟩
    refreshResult := fun _ => .ok ("tok", 100)
    now := 0
    accessToken0 := "a0"
    tokenExpiry0 := 100 }

/-- One good page carrying a continuation token, then a server error. -/
def env500b : FeedEnv :=
  { pages := fun i => if i = 0 then ⟨200, [10], some "c0"⟩ else ⟨500, [], none⟩
    refreshResult := fun _ => .ok ("tok", 100)
    now := 0
    accessToken0 := "a0"
    tokenExpiry0 := 100 }

/-- Is the fetch outcome the module's own `FeedlyAPIError`? -/
def isFeedlyErr : FetchResult → Bool
  | .err (.feedlyAPIError _) _ _ => true
  | _ => false

/-! ## Theorems -/

/-! ### Parser lemmas -/

/-- A line only ever yields an in-range value. -/
theorem lineParse_range {line : List Char} {i : Int} {v : Nat}
    (h : lineParse line = some (i, v)) : 1 ≤ v ∧ v ≤ 10 := by
  unfold lineParse at h
  repeat' split at h
  all_goals simp_all

/-- Elements after a Python list assignment come from the old list or are
the assigned value. -/
theorem pyListSet_mem {α : Type} {l l2 : List α} {i : Int} {v x : α}
    (h : pyListSet l i v = some l2) (hx : x ∈ l2) : x ∈ l ∨ x = v := by
  unfold pyListSet at h
  split at h
  · cases h; exact List.mem_or_eq_of_mem_set hx
  · cases h

/-- Python list assignment preserves length. -/
theorem pyListSet_length {α : Type} {l l2 : List α} {i : Int} {v : α}
    (h : pyListSet l i v = some l2) : l2.length = l.length := by
  unfold pyListSet at h
  split at h
  · cases h; simp
  · cases h

/-- Processing a line preserves the length of the score list. -/
theorem processLine_length (scores : List (Option Nat)) (line : List Char) :
    (processLine scores line).length = scores.length := by
  unfold processLine
  split
  · rfl
  · split
    · next hset => exact pyListSet_length hset
    · rfl

/-- Processing a line preserves the none-or-in-range invariant. -/
theorem processLine_inv {scores : List (Option Nat)} {line : List Char}
    (hs : ∀ x ∈ scores, x = none ∨ ∃ v, x = some v ∧ 1 ≤ v ∧ v ≤ 10) :
    ∀ x ∈ processLine scores line, x = none ∨ ∃ v, x = some v ∧ 1 ≤ v ∧ v ≤ 10 := by
  intro x hx
  unfold processLine at hx
  split at hx
  · exact hs x hx
  · next idx v hl =>
    split at hx
    · next hset =>
      rcases pyListSet_mem hset hx with h | h
      · exact hs x h
      · exact Or.inr ⟨v, h, lineParse_range hl⟩
    · exact hs x hx

/-- Folding the parser over any line list preserves length. -/
theorem foldl_processLine_length :
    ∀ (lines : List (List Char)) (scores : List (Option Nat)),
      (lines.foldl processLine scores).length = scores.length := by
  intro lines
  induction lines with
  | nil => intro scores; rfl
  | cons l ls ih =>
    intro scores
    show (ls.foldl processLine (processLine scores l)).length = _
    rw [ih, processLine_length]

/-- Folding the parser over any line list preserves the none-or-in-range
invariant. -/
theorem foldl_processLine_inv :
    ∀ (lines : List (List Char)) (scores : List (Option Nat)),
      (∀ x ∈ scores, x = none ∨ ∃ v, x = some v ∧ 1 ≤ v ∧ v ≤ 10) →
      ∀ x ∈ lines.foldl processLine scores, x = none ∨ ∃ v, x = some v ∧ 1 ≤ v ∧ v ≤ 10 := by
  intro lines
  induction lines with
  | nil => intro scores hs; exact hs
  | cons l ls ih =>
    intro scores hs
    exact ih (processLine scores l) (processLine_inv hs)

/-! ### Claim C2 -/

/-- C2: for every article batch size and every possible model reply, the
parsed score list has one slot per article and each slot is either unset
(`none`) or an integer in `[1, 10]`; no out-of-range or substituted value is
ever written. -/
theorem C2_relevance_score_range :
    ∀ (reply : String) (n : Nat),
      (parseScores reply n).length = n ∧
      ∀ x ∈ parseScores reply n, x = none ∨ ∃ v, x = some v ∧ 1 ≤ v ∧ v ≤ 10 := by
  intro reply n
  constructor
  · unfold parseScores
    rw [foldl_processLine_length]
    simp
  · unfold parseScores
    apply foldl_processLine_inv
    intro x hx
    exact Or.inl (List.eq_of_mem_replicate hx)

/-- Witness for C2 at a concrete reply and batch size. -/
theorem C2_relevance_score_range_witness :
    (parseScores "Article 1: 5" 2).length = 2 ∧
    ((some 5 : Option Nat) = none ∨ ∃ v, (some 5 : Option Nat) = some v ∧ 1 ≤ v ∧ v ≤ 10) :=
  ⟨(C2_relevance_score_range "Article 1: 5" 2).1,
   (C2_relevance_score_range "Article 1: 5" 2).2 (some 5) (by decide)⟩

/-! ### Claim C3 -/

/-- C3: on the spec's concrete reply for a 4-article batch the parser
yields `[7, None, None, 3]`: "banana" has no digits, 15 is out of range,
and the colon-free garbage line is skipped without affecting the others. -/
theorem C3_parser_robustness :
    parseScores "Article 1: 7\nArticle 2: banana\nArticle 3: 15\ngarbage line\nArticle 4: 3" 4
      = [some 7, none, none, some 3] := by decide

/-! ### Claim C10 -/

/-- Assigning at Python index `-1` writes the last slot. -/
theorem pyListSet_neg_one {α : Type} (l : List α) (v : α) (h : 1 ≤ l.length) :
    pyListSet l (-1) v = some (l.set (l.length - 1) v) := by
  have hj : pyIdx l.length (-1) = (l.length : Int) - 1 := by
    unfold pyIdx
    rw [if_pos (by norm_num : (-1 : Int) < 0)]
    omega
  unfold pyListSet
  rw [hj]
  rw [if_pos (by constructor <;> omega)]
  congr 2
  omega

/-- The line `"Article 0: 5"` writes score 5 into the *last* slot of any
non-empty score list. -/
theorem processLine_zero_label (scores : List (Option Nat)) (hlen : 1 ≤ scores.length) :
    processLine scores ("Article 0: 5".data) = scores.set (scores.length - 1) (some 5) := by
  unfold processLine
  rw [show lineParse ("Article 0: 5".data) = some (-1, 5) from by decide]
  show (match pyListSet scores (-1) (some 5) with
        | some scores2 => scores2
        | none => scores) = scores.set (scores.length - 1) (some 5)
  rw [pyListSet_neg_one scores (some 5) hlen]

/-- C10: for every batch of `n ≥ 1` articles, the reply line
`"Article 0: 5"` is not skipped: the computed list index `0 - 1 = -1` wraps
around under Python negative indexing and the score 5 lands on the last
(`n`-th) article of the batch. -/
theorem C10_zero_index_wraparound (n : Nat) (h : 1 ≤ n) :
    parseScores "Article 0: 5" n = (List.replicate n (none : Option Nat)).set (n - 1) (some 5) := by
  unfold parseScores
  rw [show splitOnChar '\n' (pyStrip ("Article 0: 5".data)) = [("Article 0: 5".data)] from by
    decide]
  have h2 := processLine_zero_label (List.replicate n none) (by simpa using h)
  simpa using h2

/-- Witness for C10 at `n = 3`. -/
theorem C10_zero_index_wraparound_witness :
    1 ≤ 3 ∧
    parseScores "Article 0: 5" 3 = (List.replicate 3 (none : Option Nat)).set 2 (some 5) :=
  ⟨by decide, C10_zero_index_wraparound 3 (by decide)⟩

/-! ### Claim C1 -/

/-- If the oracle succeeds on every batch before `fb` and raises on batch
`fb`, the batch loop aborts with the `OpenAIError` message naming
1-based batch `fb + 1`. -/
theorem runBatches_first_fail (oracle : ScoringOracle) (df : List Row)
    (column : Row → Option String) (bs nb fb : Nat) (e : String)
    (hfb : fb < nb)
    (hok : ∀ j, j < fb → ∃ r, oracle (j + 1) (mkBatch df column bs nb j).prompt = Except.ok r)
    (hfail : oracle (fb + 1) (mkBatch df column bs nb fb).prompt = Except.error e) :
    ∀ (rem b : Nat) (scores : List (Option Nat)), b + rem = nb → b ≤ fb →
      runBatches oracle df column bs nb rem b scores
        = .error ("Failed to process batch " ++ toString (fb + 1) ++ ": " ++ e) := by
  intro rem
  induction rem with
  | zero => intro b scores h1 h2; omega
  | succ rem ih =>
    intro b scores h1 h2
    show (match process_batch oracle (mkBatch df column bs nb b) with
          | Except.error e => (Except.error e : Except String (List (Option Nat)))
          | Except.ok bscores =>
            runBatches oracle df column bs nb rem (b + 1)
              (mergeScores scores (b * bs) bscores))
        = Except.error ("Failed to process batch " ++ toString (fb + 1) ++ ": " ++ e)
    by_cases hbe : b = fb
    · subst hbe
      unfold process_batch
      rw [show (mkBatch df column bs nb b).batch_number = b + 1 from rfl]
      rw [show (mkBatch df column bs nb b).prompt = (mkBatch df column bs nb b).prompt from rfl]
      rw [hfail]
    · obtain ⟨r, hr⟩ := hok b (by omega)
      unfold process_batch
      rw [show (mkBatch df column bs nb b).batch_number = b + 1 from rfl]
      rw [hr]
      exact ih (b + 1) _ (by omega) (by omega)

/-- C1 (amended): when the language-model call for (0-based) batch `fb`
fails after all earlier batches succeeded, `process_batch` raises an
`OpenAIError` identifying 1-based batch `fb + 1`, `batch_gpt_scoring`
catches it, and the returned DataFrame is the input unchanged: the scores
gathered from the earlier successful batches are *discarded*, not
retained (the score column is only written after all batches). -/
theorem C1_batch_failure_aborts_and_discards (oracle : ScoringOracle) (df : List Row)
    (column : Row → Option String) (bs fb : Nat) (e : String)
    (hbs : 0 < bs) (hfb : fb < n_batchesOf df bs)
    (hok : ∀ j, j < fb →
      ∃ r, oracle (j + 1) (mkBatch df column bs (n_batchesOf df bs) j).prompt = Except.ok r)
    (hfail : oracle (fb + 1) (mkBatch df column bs (n_batchesOf df bs) fb).prompt
        = Except.error e) :
    batch_gpt_scoring oracle df column bs
      = (df, some ("Failed to process batch " ++ toString (fb + 1) ++ ": " ++ e)) := by
  unfold batch_gpt_scoring
  rw [if_neg (by omega)]
  rw [runBatches_first_fail oracle df column bs (n_batchesOf df bs) fb e hfb hok hfail
    (n_batchesOf df bs) 0 (List.replicate df.length none) (by omega) (by omega)]

/-- Witness for C1 (amended) at a concrete frame/oracle: two articles,
batch size 1; batch 1 scores article 1 with 9, batch 2 raises. -/
theorem C1_batch_failure_aborts_and_discards_witness :
    batch_gpt_scoring oracleC1 dfC1 (fun r => r.Summary) 1
      = (dfC1, some "Failed to process batch 2: boom") := by
  have h := C1_batch_failure_aborts_and_discards oracleC1 dfC1 (fun r => r.Summary) 1 1 "boom"
    (by decide) (by decide)
    (fun j hj => by
      interval_cases j
      exact ⟨"Article 1: 9", rfl⟩)
    rfl
  exact h

/-- C1 counterexample to the claim as stated: at the same input, batch 1
did gather a score (its reply parses to `[some 9]`), yet the returned
result carries *no* scores at all — the prior batch's scores are not
retained — even though the error message does name the failing batch. -/
theorem C1_counterexample_scores_dropped :
    (batch_gpt_scoring oracleC1 dfC1 (fun r => r.Summary) 1).1.map (fun r => r.GPT_Pertinence)
        = [none, none]
    ∧ (batch_gpt_scoring oracleC1 dfC1 (fun r => r.Summary) 1).2
        = some "Failed to process batch 2: boom"
    ∧ parseScores "Article 1: 9" 1 = [some 9] := by
  refine ⟨?_, ?_, ?_⟩ <;> decide

/-! ### Enrichment lemmas -/

/-- Enriching a row does not touch its score. -/
theorem enrichRow_gpt (oracle : BulletOracle) (column : Row → Option String) (r : Row) :
    (enrichRow oracle column r).GPT_Pertinence = r.GPT_Pertinence := rfl

/-- An enriched row always carries a `Bullet_Points` value (the sentinel
text on failure). -/
theorem enrichRow_some (oracle : BulletOracle) (column : Row → Option String) (r : Row) :
    (enrichRow oracle column r).Bullet_Points.isSome = true := rfl

/-- The enrichment walk preserves the number of rows. -/
theorem enrichGo_length (oracle : BulletOracle) (column : Row → Option String)
    (top : List Nat) :
    ∀ (df : List Row) (i : Nat), (enrichGo oracle column top i df).length = df.length := by
  intro df
  induction df with
  | nil => intro i; rfl
  | cons r rest ih =>
    intro i
    show ((if i ∈ top then enrichRow oracle column r else r)
        :: enrichGo oracle column top (i + 1) rest).length = _
    simp [ih (i + 1)]

/-- Row `k` of the enrichment walk started at offset `i`: enriched exactly
when its label `i + k` is selected, untouched otherwise. -/
theorem enrichGo_get (oracle : BulletOracle) (column : Row → Option String) (top : List Nat) :
    ∀ (df : List Row) (i k : Nat) (hk : k < df.length)
      (hk2 : k < (enrichGo oracle column top i df).length),
      (enrichGo oracle column top i df).get ⟨k, hk2⟩
        = if (i + k) ∈ top then enrichRow oracle column (df.get ⟨k, hk⟩) else df.get ⟨k, hk⟩ := by
  intro df
  induction df with
  | nil => intro i k hk hk2; simp at hk
  | cons r rest ih =>
    intro i k hk hk2
    cases k with
    | zero => simp [enrichGo]
    | succ k =>
      have hk' : k < rest.length := by simpa using hk
      have hk2' : k < (enrichGo oracle column top (i + 1) rest).length := by
        rw [enrichGo_length]; exact hk'
      show (enrichGo oracle column top (i + 1) rest).get ⟨k, hk2'⟩ = _
      rw [ih (i + 1) k hk' hk2']
      have harith : i + 1 + k = i + (k + 1) := by omega
      rw [harith]
      rfl

/-- With all `Bullet_Points` initially absent, the labels populated by the
enrichment walk are exactly the in-range labels selected by `top`. -/
theorem bulletIdx_enrichGo (oracle : BulletOracle) (column : Row → Option String)
    (top : List Nat) :
    ∀ (df : List Row) (i : Nat), (∀ r ∈ df, r.Bullet_Points = none) →
      bulletIdx i (enrichGo oracle column top i df)
        = (List.range' i df.length).filter (fun j => decide (j ∈ top)) := by
  intro df
  induction df with
  | nil => intro i h; rfl
  | cons r rest ih =>
    intro i h
    have htail : ∀ x ∈ rest, x.Bullet_Points = none :=
      fun x hx => h x (List.mem_cons_of_mem _ hx)
    show bulletIdx i ((if i ∈ top then enrichRow oracle column r else r)
        :: enrichGo oracle column top (i + 1) rest) = _
    rw [show ((r :: rest).length) = rest.length + 1 from rfl, List.range'_succ, List.filter_cons]
    by_cases hm : i ∈ top
    · rw [if_pos hm]
      show (if (enrichRow oracle column r).Bullet_Points.isSome then
            i :: bulletIdx (i + 1) (enrichGo oracle column top (i + 1) rest)
          else bulletIdx (i + 1) (enrichGo oracle column top (i + 1) rest)) = _
      rw [if_pos (enrichRow_some oracle column r)]
      rw [ih (i + 1) htail]
      simp [hm]
    · rw [if_neg hm]
      show (if r.Bullet_Points.isSome then
            i :: bulletIdx (i + 1) (enrichGo oracle column top (i + 1) rest)
          else bulletIdx (i + 1) (enrichGo oracle column top (i + 1) rest)) = _
      rw [if_neg (by simp [h r (List.mem_cons_self r rest)])]
      rw [ih (i + 1) htail]
      simp [hm]

/-- Filtering a contiguous label range by membership in a strictly
increasing, range-bounded list returns that list. -/
theorem filter_range'_mem :
    ∀ (m : Nat) (L : List Nat) (i : Nat), L.Pairwise (· < ·) →
      (∀ x ∈ L, i ≤ x ∧ x < i + m) →
      (List.range' i m).filter (fun j => decide (j ∈ L)) = L := by
  intro m
  induction m with
  | zero =>
    intro L i hp hb
    cases L with
    | nil => rfl
    | cons a t => exact absurd (hb a (by simp)) (by omega)
  | succ m ih =>
    intro L i hp hb
    rw [List.range'_succ, List.filter_cons]
    by_cases hi : i ∈ L
    · cases L with
      | nil => simp at hi
      | cons a t =>
        have ha : a = i := by
          rcases List.mem_cons.mp hi with h | h
          · omega
          · have h1 : i ≤ a := (hb a (by simp)).1
            have h2 : a < i := List.rel_of_pairwise_cons hp h
            omega
        subst ha
        rw [if_pos (by simp)]
        have hpt : t.Pairwise (· < ·) := hp.of_cons
        have hat : ∀ x ∈ t, a < x := fun x hx => List.rel_of_pairwise_cons hp hx
        have hcongr : ∀ j ∈ List.range' (a + 1) m,
            decide (j ∈ a :: t) = decide (j ∈ t) := by
          intro j hj
          have : a + 1 ≤ j := (List.mem_range'_1.mp hj).1
          simp only [List.mem_cons, decide_eq_decide]
          constructor
          · rintro (rfl | h)
            · omega
            · exact h
          · exact Or.inr
        rw [List.filter_congr hcongr]
        rw [ih t (a + 1) hpt (fun x hx => by
          have h1 := hat x hx
          have h2 := (hb x (List.mem_cons_of_mem _ hx)).2
          omega)]
    · rw [if_neg (by simpa using hi)]
      apply ih L (i + 1) hp
      intro x hx
      have h1 := hb x hx
      have h2 : x ≠ i := fun he => hi (he ▸ hx)
      omega

/-- Labels from `qualIdx` are strictly increasing and lie within the
scanned range. -/
theorem qualIdx_sorted_bounds :
    ∀ (df : List Row) (i : Nat),
      (qualIdx i df).Pairwise (· < ·) ∧ ∀ x ∈ qualIdx i df, i ≤ x ∧ x < i + df.length := by
  intro df
  induction df with
  | nil => intro i; exact ⟨List.Pairwise.nil, by simp [qualIdx]⟩
  | cons r rest ih =>
    intro i
    obtain ⟨hp, hb⟩ := ih (i + 1)
    rw [show qualIdx i (r :: rest)
        = (if pyGtNat r.GPT_Pertinence 7 then i :: qualIdx (i + 1) rest
          else qualIdx (i + 1) rest) from rfl]
    by_cases hq : pyGtNat r.GPT_Pertinence 7 = true
    · rw [if_pos hq]
      refine ⟨List.Pairwise.cons (fun x hx => by have := hb x hx; omega) hp, ?_⟩
      intro x hx
      rcases List.mem_cons.mp hx with rfl | h
      · simp
      · have := hb x h
        simp only [List.length_cons]
        omega
    · rw [if_neg hq]
      refine ⟨hp, ?_⟩
      intro x hx
      have := hb x hx
      simp only [List.length_cons]
      omega

/-- Each label produced by `qualIdx` names a row whose score qualifies. -/
theorem qualIdx_mem :
    ∀ (df : List Row) (i j : Nat), j ∈ qualIdx i df →
      ∃ (k : Nat) (hk : k < df.length), j = i + k ∧
        pyGtNat ((df.get ⟨k, hk⟩).GPT_Pertinence) 7 = true := by
  intro df
  induction df with
  | nil => intro i j h; simp [qualIdx] at h
  | cons r rest ih =>
    intro i j h
    rw [show qualIdx i (r :: rest)
        = (if pyGtNat r.GPT_Pertinence 7 then i :: qualIdx (i + 1) rest
          else qualIdx (i + 1) rest) from rfl] at h
    by_cases hq : pyGtNat r.GPT_Pertinence 7 = true
    · rw [if_pos hq] at h
      rcases List.mem_cons.mp h with rfl | h2
      · exact ⟨0, by simp, by omega, hq⟩
      · obtain ⟨k, hk, hjk, hqk⟩ := ih (i + 1) j h2
        exact ⟨k + 1, by simpa using hk, by omega, hqk⟩
    · rw [if_neg hq] at h
      obtain ⟨k, hk, hjk, hqk⟩ := ih (i + 1) j h
      exact ⟨k + 1, by simpa using hk, by omega, hqk⟩

/-- The populated-label list counts the populated rows. -/
theorem bulletIdx_length :
    ∀ (l : List Row) (i : Nat),
      (bulletIdx i l).length = (l.filter (fun r => r.Bullet_Points.isSome)).length := by
  intro l
  induction l with
  | nil => intro i; rfl
  | cons r t ih =>
    intro i
    show (if r.Bullet_Points.isSome then i :: bulletIdx (i + 1) t else bulletIdx (i + 1) t).length
        = _
    rw [List.filter_cons]
    by_cases h : r.Bullet_Points.isSome = true
    · simp [h, ih (i + 1)]
    · simp [h, ih (i + 1)]

/-! ### Claim C5 -/

/-- C5: starting from a frame with no bullet points, the enrichment stage
populates `Bullet_Points` on at most 5 rows, only on rows whose
`GPT_Pertinence` is set and `> 7`, and the populated row labels are exactly
`topIdxOf df` — the first (at most) five qualifying rows in incoming
order. -/
theorem C5_enrichment_cap_and_selection (oracle : BulletOracle) (df : List Row)
    (column : Row → Option String)
    (h0 : ∀ r ∈ df, r.Bullet_Points = none) :
    ((generate_bullet_points_for_top_articles oracle df column).filter
        (fun r => r.Bullet_Points.isSome)).length ≤ 5
    ∧ (∀ r ∈ generate_bullet_points_for_top_articles oracle df column,
        r.Bullet_Points.isSome = true → pyGtNat r.GPT_Pertinence 7 = true)
    ∧ bulletIdx 0 (generate_bullet_points_for_top_articles oracle df column) = topIdxOf df := by
  have hsel : bulletIdx 0 (generate_bullet_points_for_top_articles oracle df column)
      = topIdxOf df := by
    unfold generate_bullet_points_for_top_articles
    rw [bulletIdx_enrichGo oracle column (topIdxOf df) df 0 h0]
    obtain ⟨hp, hb⟩ := qualIdx_sorted_bounds df 0
    apply filter_range'_mem df.length (topIdxOf df) 0
    · exact List.Pairwise.sublist (List.take_sublist 5 (qualIdx 0 df)) hp
    · intro x hx
      have := hb x (List.take_subset 5 (qualIdx 0 df) hx)
      omega
  refine ⟨?_, ?_, hsel⟩
  · have h1 := bulletIdx_length (generate_bullet_points_for_top_articles oracle df column) 0
    rw [hsel] at h1
    rw [← h1]
    exact List.length_take_le 5 (qualIdx 0 df)
  · intro r hr hsome
    obtain ⟨⟨k, hk2⟩, rfl⟩ := List.mem_iff_get.mp hr
    have hk : k < df.length := by
      have hlen := enrichGo_length oracle column (topIdxOf df) df 0
      unfold generate_bullet_points_for_top_articles at hk2
      omega
    have hget : (generate_bullet_points_for_top_articles oracle df column).get ⟨k, hk2⟩
        = if (0 + k) ∈ topIdxOf df then enrichRow oracle column (df.get ⟨k, hk⟩)
          else df.get ⟨k, hk⟩ := enrichGo_get oracle column (topIdxOf df) df 0 k hk hk2
    rw [hget] at hsome ⊢
    by_cases hmem : (0 + k) ∈ topIdxOf df
    · rw [if_pos hmem]
      rw [enrichRow_gpt]
      have hkq : k ∈ qualIdx 0 df := by
        have := List.take_subset 5 (qualIdx 0 df) hmem
        simpa using this
      obtain ⟨k2, hk2b, hEq, hq⟩ := qualIdx_mem df 0 k hkq
      have hkk : k2 = k := by omega
      subst hkk
      exact hq
    · rw [if_neg hmem] at hsome
      have hmemdf : df.get ⟨k, hk⟩ ∈ df := List.get_mem df k hk
      rw [h0 _ hmemdf] at hsome
      simp at hsome

/-- Witness for C5 at a concrete frame (two qualifiers among three rows)
and an always-succeeding oracle. -/
theorem C5_enrichment_cap_and_selection_witness :
    ((generate_bullet_points_for_top_articles oracleOk5 df5 (fun r => r.Content)).filter
        (fun r => r.Bullet_Points.isSome)).length ≤ 5
    ∧ bulletIdx 0 (generate_bullet_points_for_top_articles oracleOk5 df5 (fun r => r.Content))
        = topIdxOf df5 := by
  have h := C5_enrichment_cap_and_selection oracleOk5 df5 (fun r => r.Content) (by decide)
  exact ⟨h.1, h.2.2⟩

/-! ### Claim C6 -/

/-- C6 (amended): enrichment outcomes are fully isolated per article — row
`k` of the output is its input row, enriched (via its own oracle call)
exactly when selected, independently of every other article's outcome — but
on a failed language-model call the article's `Bullet_Points` is *not* left
unset: it is set to the literal sentinel `"Error generating summary"`
returned by `generate_bullet_points_summary`. -/
theorem C6_enrichment_failure_isolated_sentinel (oracle : BulletOracle) (df : List Row)
    (column : Row → Option String) :
    (∀ (k : Nat) (hk : k < df.length)
      (hk2 : k < (generate_bullet_points_for_top_articles oracle df column).length),
      (generate_bullet_points_for_top_articles oracle df column).get ⟨k, hk2⟩
        = if k ∈ topIdxOf df then enrichRow oracle column (df.get ⟨k, hk⟩)
          else df.get ⟨k, hk⟩)
    ∧ ∀ (title : String) (content : Option String) (e : String),
        oracle title content = Except.error e →
        generate_bullet_points_summary oracle title content = "Error generating summary" := by
  constructor
  · intro k hk hk2
    have hget := enrichGo_get oracle column (topIdxOf df) df 0 k hk hk2
    simpa using hget
  · intro title content e he
    unfold generate_bullet_points_summary
    rw [he]

/-- Witness for C6 (amended) at a one-row frame whose oracle always
fails. -/
theorem C6_enrichment_failure_isolated_sentinel_witness :
    ((generate_bullet_points_for_top_articles oracleFail6 df6 (fun r => r.Content)).get
        ⟨0, by decide⟩
      = if 0 ∈ topIdxOf df6 then enrichRow oracleFail6 (fun r => r.Content) (df6.get ⟨0, by decide⟩)
        else df6.get ⟨0, by decide⟩)
    ∧ generate_bullet_points_summary oracleFail6 "t" (some "c") = "Error generating summary" := by
  constructor
  · exact (C6_enrichment_failure_isolated_sentinel oracleFail6 df6 (fun r => r.Content)).1 0
      (by decide) (by decide)
  · exact (C6_enrichment_failure_isolated_sentinel oracleFail6 df6 (fun r => r.Content)).2
      "t" (some "c") "api down" rfl

/-- C6 counterexample to the claim as stated: a selected article whose
language-model call fails does *not* keep `Bullet_Points` unset — the field
is populated with the sentinel text (input row had `none`). -/
theorem C6_counterexample_sentinel_not_unset :
    (generate_bullet_points_for_top_articles oracleFail6 df6 (fun r => r.Content)).map
        (fun r => r.Bullet_Points) = [some "Error generating summary"]
    ∧ df6.map (fun r => r.Bullet_Points) = [none] := by
  refine ⟨?_, ?_⟩ <;> decide

/-! ### Fetch-loop lemmas -/

/-- Accounting for zero refreshes is a no-op. -/
theorem FetchResult.addRefresh_zero (r : FetchResult) : FetchResult.addRefresh 0 r = r := by
  cases r <;> rfl

/-- With an unexpired credential the proactive-refresh check does
nothing. -/
theorem proactiveRefresh_fresh {env : FeedEnv} {expiry : Nat} (h : env.now < expiry)
    (refIdx : Nat) (token : String) :
    proactiveRefresh env refIdx token expiry = .ok (token, expiry, refIdx, 0) := by
  unfold proactiveRefresh
  rw [if_neg (by omega)]

/-- One loop iteration with an unexpired credential is just the page
step. -/
theorem loop_succ_fresh (env : FeedEnv) (fuel reqIdx refIdx : Nat) (token : String)
    (expiry : Nat) (acc : List Nat) (cont : Option String) (bc : Nat)
    (h : env.now < expiry) :
    get_feedly_articles_loop env (fuel + 1) reqIdx refIdx token expiry acc cont bc
      = feedPageStep env (get_feedly_articles_loop env fuel) reqIdx refIdx token expiry
          acc cont bc := by
  show (match proactiveRefresh env refIdx token expiry with
        | .error e => FetchResult.err e [] 1
        | .ok (token2, expiry2, refIdx2, k) =>
          FetchResult.addRefresh k
            (feedPageStep env (get_feedly_articles_loop env fuel) reqIdx refIdx2 token2 expiry2
              acc cont bc)) = _
  rw [proactiveRefresh_fresh h]
  exact FetchResult.addRefresh_zero _

/-- Page step on a good page whose continuation is truthy: accumulate and
continue with the returned token. -/
theorem feedPageStep_ok (env : FeedEnv)
    (next : Nat → Nat → String → Nat → List Nat → Option String → Nat → FetchResult)
    (reqIdx refIdx : Nat) (token : String) (expiry : Nat) (acc : List Nat)
    (cont : Option String) (bc : Nat)
    (h401 : ¬(env.pages reqIdx).status = 401)
    (hok : ¬(400 ≤ (env.pages reqIdx).status ∧ (env.pages reqIdx).status < 600))
    (hcont : ¬ contFalsy (env.pages reqIdx).contToken = true) :
    feedPageStep env next reqIdx refIdx token expiry acc cont bc
      = FetchResult.consLog cont
          (next (reqIdx + 1) refIdx token expiry (acc ++ (env.pages reqIdx).items)
            (env.pages reqIdx).contToken (bc + 1)) := by
  unfold feedPageStep
  rw [if_neg h401, if_neg hok, if_neg hcont]

/-- Page step on a good page whose continuation is falsy: the loop
`break`s and returns. -/
theorem feedPageStep_last (env : FeedEnv)
    (next : Nat → Nat → String → Nat → List Nat → Option String → Nat → FetchResult)
    (reqIdx refIdx : Nat) (token : String) (expiry : Nat) (acc : List Nat)
    (cont : Option String) (bc : Nat)
    (h401 : ¬(env.pages reqIdx).status = 401)
    (hok : ¬(400 ≤ (env.pages reqIdx).status ∧ (env.pages reqIdx).status < 600))
    (hcont : contFalsy (env.pages reqIdx).contToken = true) :
    feedPageStep env next reqIdx refIdx token expiry acc cont bc
      = .ok (acc ++ (env.pages reqIdx).items) (bc + 1) [cont] 0 := by
  unfold feedPageStep
  rw [if_neg h401, if_neg hok, if_pos hcont]

/-- Page step on a non-401 HTTP failure: `raise_for_status()` escapes with
the raw `HTTPError`. -/
theorem feedPageStep_httpErr (env : FeedEnv)
    (next : Nat → Nat → String → Nat → List Nat → Option String → Nat → FetchResult)
    (reqIdx refIdx : Nat) (token : String) (expiry : Nat) (acc : List Nat)
    (cont : Option String) (bc : Nat)
    (h401 : ¬(env.pages reqIdx).status = 401)
    (herr : 400 ≤ (env.pages reqIdx).status ∧ (env.pages reqIdx).status < 600) :
    feedPageStep env next reqIdx refIdx token expiry acc cont bc
      = .err (.httpError (env.pages reqIdx).status) [cont] 0 := by
  unfold feedPageStep
  rw [if_neg h401, if_pos herr]

/-- Page step on a 401 with a successful reactive refresh: one refresh,
retry the same page request with the same continuation token. -/
theorem feedPageStep_401 (env : FeedEnv)
    (next : Nat → Nat → String → Nat → List Nat → Option String → Nat → FetchResult)
    (reqIdx refIdx : Nat) (token : String) (expiry : Nat) (acc : List Nat)
    (cont : Option String) (bc : Nat) (t2 : String) (e2 : Nat)
    (h401 : (env.pages reqIdx).status = 401)
    (href : env.refreshResult refIdx = .ok (t2, e2)) :
    feedPageStep env next reqIdx refIdx token expiry acc cont bc
      = FetchResult.addRefresh 1
          (FetchResult.consLog cont (next (reqIdx + 1) (refIdx + 1) t2 e2 acc cont bc)) := by
  unfold feedPageStep
  rw [if_pos h401]
  unfold refresh_access_token
  rw [href]

/-- Splitting the head off an index-mapped flattened range. -/
theorem flatten_map_range_succ {α : Type} (f : Nat → List α) (n : Nat) :
    ((List.range (n + 1)).map f).flatten = f 0 ++ ((List.range n).map (fun i => f (i + 1))).flatten := by
  rw [List.range_succ_eq_map]
  simp only [List.map_cons, List.map_map, List.flatten_cons]
  rfl

/-- Splitting the head off an index-mapped range. -/
theorem map_range_succ {α : Type} (f : Nat → α) (n : Nat) :
    (List.range (n + 1)).map f = f 0 :: (List.range n).map (fun i => f (i + 1)) := by
  rw [List.range_succ_eq_map]
  simp only [List.map_cons, List.map_map]
  rfl

/-- A run of `k + 1` good pages (the last with a falsy continuation)
returns the concatenated items, one batch per page, no refresh. -/
theorem loop_ok_run (env : FeedEnv) :
    ∀ (k fuel reqIdx refIdx : Nat) (token : String) (expiry : Nat) (acc : List Nat)
      (cont : Option String) (bc : Nat),
      env.now < expiry →
      (∀ i, i ≤ k → ¬(env.pages (reqIdx + i)).status = 401
          ∧ ¬(400 ≤ (env.pages (reqIdx + i)).status ∧ (env.pages (reqIdx + i)).status < 600)) →
      (∀ i, i < k → ¬ contFalsy (env.pages (reqIdx + i)).contToken = true) →
      contFalsy (env.pages (reqIdx + k)).contToken = true →
      k < fuel →
      get_feedly_articles_loop env fuel reqIdx refIdx token expiry acc cont bc
        = .ok (acc ++ ((List.range (k + 1)).map (fun i => (env.pages (reqIdx + i)).items)).flatten)
            (bc + (k + 1))
            (cont :: (List.range k).map (fun i => (env.pages (reqIdx + i)).contToken))
            0 := by
  intro k
  induction k with
  | zero =>
    intro fuel reqIdx refIdx token expiry acc cont bc hexp hst hcont hfal hfuel
    obtain ⟨fuel, rfl⟩ : ∃ f, fuel = f + 1 := ⟨fuel - 1, by omega⟩
    rw [loop_succ_fresh env _ _ _ _ _ _ _ _ hexp]
    rw [feedPageStep_last env _ _ _ _ _ _ _ _ (by simpa using (hst 0 (by omega)).1)
      (by simpa using (hst 0 (by omega)).2) (by simpa using hfal)]
    rw [show List.range 1 = [0] from rfl]
    simp
  | succ k ih =>
    intro fuel reqIdx refIdx token expiry acc cont bc hexp hst hcont hfal hfuel
    obtain ⟨fuel, rfl⟩ : ∃ f, fuel = f + 1 := ⟨fuel - 1, by omega⟩
    rw [loop_succ_fresh env _ _ _ _ _ _ _ _ hexp]
    rw [feedPageStep_ok env _ _ _ _ _ _ _ _ (by simpa using (hst 0 (by omega)).1)
      (by simpa using (hst 0 (by omega)).2) (by simpa using hcont 0 (by omega))]
    rw [ih fuel (reqIdx + 1) refIdx token expiry (acc ++ (env.pages reqIdx).items)
      ((env.pages reqIdx).contToken) (bc + 1) hexp
      (fun i hi => by
        have h := hst (i + 1) (by omega)
        have harith : reqIdx + (i + 1) = reqIdx + 1 + i := by omega
        rw [harith] at h
        exact h)
      (fun i hi => by
        have h := hcont (i + 1) (by omega)
        have harith : reqIdx + (i + 1) = reqIdx + 1 + i := by omega
        rw [harith] at h
        exact h)
      (by
        have harith : reqIdx + (k + 1) = reqIdx + 1 + k := by omega
        rw [harith] at hfal
        exact hfal)
      (by omega)]
    simp only [FetchResult.consLog]
    have hish : List.map (fun i => (env.pages (reqIdx + (i + 1))).items) (List.range (k + 1))
        = List.map (fun i => (env.pages (reqIdx + 1 + i)).items) (List.range (k + 1)) :=
      List.map_congr_left (fun a _ => by
        rw [show reqIdx + (a + 1) = reqIdx + 1 + a from by omega])
    have hitems : (List.map (fun i => (env.pages (reqIdx + i)).items)
          (List.range (k + 1 + 1))).flatten
        = (env.pages reqIdx).items
          ++ (List.map (fun i => (env.pages (reqIdx + 1 + i)).items)
              (List.range (k + 1))).flatten := by
      rw [flatten_map_range_succ (fun i => (env.pages (reqIdx + i)).items) (k + 1), hish]
      simp
    have hlsh : List.map (fun i => (env.pages (reqIdx + (i + 1))).contToken) (List.range k)
        = List.map (fun i => (env.pages (reqIdx + 1 + i)).contToken) (List.range k) :=
      List.map_congr_left (fun a _ => by
        rw [show reqIdx + (a + 1) = reqIdx + 1 + a from by omega])
    have hlog : (List.map (fun i => (env.pages (reqIdx + i)).contToken) (List.range (k + 1)))
        = (env.pages reqIdx).contToken
          :: List.map (fun i => (env.pages (reqIdx + 1 + i)).contToken) (List.range k) := by
      rw [map_range_succ (fun i => (env.pages (reqIdx + i)).contToken) k, hlsh]
      simp
    rw [hitems, hlog, ← List.append_assoc]
    congr 1
    omega

/-- A run of `k` good pages followed by a non-401 HTTP failure escapes
with the raw `HTTPError`, carrying no articles. -/
theorem loop_err_run (env : FeedEnv) :
    ∀ (k fuel reqIdx refIdx : Nat) (token : String) (expiry : Nat) (acc : List Nat)
      (cont : Option String) (bc : Nat),
      env.now < expiry →
      (∀ i, i < k → (¬(env.pages (reqIdx + i)).status = 401
          ∧ ¬(400 ≤ (env.pages (reqIdx + i)).status ∧ (env.pages (reqIdx + i)).status < 600))
          ∧ ¬ contFalsy (env.pages (reqIdx + i)).contToken = true) →
      ¬(env.pages (reqIdx + k)).status = 401 →
      400 ≤ (env.pages (reqIdx + k)).status →
      (env.pages (reqIdx + k)).status < 600 →
      k < fuel →
      get_feedly_articles_loop env fuel reqIdx refIdx token expiry acc cont bc
        = .err (.httpError (env.pages (reqIdx + k)).status)
            (cont :: (List.range k).map (fun i => (env.pages (reqIdx + i)).contToken))
            0 := by
  intro k
  induction k with
  | zero =>
    intro fuel reqIdx refIdx token expiry acc cont bc hexp hpre h401 hlo hhi hfuel
    obtain ⟨fuel, rfl⟩ : ∃ f, fuel = f + 1 := ⟨fuel - 1, by omega⟩
    rw [loop_succ_fresh env _ _ _ _ _ _ _ _ hexp]
    rw [feedPageStep_httpErr env _ _ _ _ _ _ _ _ (by simpa using h401)
      ⟨by simpa using hlo, by simpa using hhi⟩]
    simp
  | succ k ih =>
    intro fuel reqIdx refIdx token expiry acc cont bc hexp hpre h401 hlo hhi hfuel
    obtain ⟨fuel, rfl⟩ : ∃ f, fuel = f + 1 := ⟨fuel - 1, by omega⟩
    rw [loop_succ_fresh env _ _ _ _ _ _ _ _ hexp]
    rw [feedPageStep_ok env _ _ _ _ _ _ _ _ (by simpa using ((hpre 0 (by omega)).1).1)
      (by simpa using ((hpre 0 (by omega)).1).2) (by simpa using (hpre 0 (by omega)).2)]
    rw [ih fuel (reqIdx + 1) refIdx token expiry (acc ++ (env.pages reqIdx).items)
      ((env.pages reqIdx).contToken) (bc + 1) hexp
      (fun i hi => by
        have h := hpre (i + 1) (by omega)
        have harith : reqIdx + (i + 1) = reqIdx + 1 + i := by omega
        rw [harith] at h
        exact h)
      (by
        have harith : reqIdx + (k + 1) = reqIdx + 1 + k := by omega
        rw [harith] at h401
        exact h401)
      (by
        have harith : reqIdx + (k + 1) = reqIdx + 1 + k := by omega
        rw [harith] at hlo
        exact hlo)
      (by
        have harith : reqIdx + (k + 1) = reqIdx + 1 + k := by omega
        rw [harith] at hhi
        exact hhi)
      (by omega)]
    simp only [FetchResult.consLog]
    have hlsh : List.map (fun i => (env.pages (reqIdx + (i + 1))).contToken) (List.range k)
        = List.map (fun i => (env.pages (reqIdx + 1 + i)).contToken) (List.range k) :=
      List.map_congr_left (fun a _ => by
        rw [show reqIdx + (a + 1) = reqIdx + 1 + a from by omega])
    have hlog : (List.map (fun i => (env.pages (reqIdx + i)).contToken) (List.range (k + 1)))
        = (env.pages reqIdx).contToken
          :: List.map (fun i => (env.pages (reqIdx + 1 + i)).contToken) (List.range k) := by
      rw [map_range_succ (fun i => (env.pages (reqIdx + i)).contToken) k, hlsh]
      simp
    rw [hlog, show reqIdx + (k + 1) = reqIdx + 1 + k from by omega]

/-! ### Claim C7 -/

/-- C7 (amended): if every page request succeeds (no 401, no 4xx/5xx), the
fetch returns exactly the concatenation, in request order, of the pages'
item lists, and it stops issuing page requests precisely at the first
response whose continuation token is *falsy* — omitted or the empty string
(Python `if not continuation: break`): with the first falsy continuation on
page `k`, exactly `k + 1` requests are issued and counted. -/
theorem C7_pagination_returns_concatenation (env : FeedEnv) (fuel k : Nat)
    (hexp : env.now < env.tokenExpiry0)
    (hst : ∀ i, i ≤ k → ¬(env.pages i).status = 401
        ∧ ¬(400 ≤ (env.pages i).status ∧ (env.pages i).status < 600))
    (hcont : ∀ i, i < k → ¬ contFalsy (env.pages i).contToken = true)
    (hfal : contFalsy (env.pages k).contToken = true)
    (hfuel : k < fuel) :
    get_feedly_articles env fuel
      = .ok (((List.range (k + 1)).map (fun i => (env.pages i).items)).flatten)
          (k + 1)
          (none :: (List.range k).map (fun i => (env.pages i).contToken))
          0 := by
  unfold get_feedly_articles
  have h := loop_ok_run env k fuel 0 0 env.accessToken0 env.tokenExpiry0 [] none 0 hexp
    (by simpa using hst) (by simpa using hcont) (by simpa using hfal) hfuel
  simpa using h

/-- Witness for C7 (amended): two successful pages, the second without a
continuation token. -/
theorem C7_pagination_returns_concatenation_witness :
    get_feedly_articles envC7w 5 = .ok [10, 11, 12] 2 [none, some "c0"] 0 := by
  have h := C7_pagination_returns_concatenation envC7w 5 1 (by decide) (by decide) (by decide)
    (by decide) (by decide)
  exact h.trans (by decide)

/-- C7 counterexample to the claim as stated: a first page whose response
*includes* a continuation token — the empty string — is nonetheless
terminal: only one request is issued and only that page's item is returned,
although the token was not omitted (a second page with item 11 was
available). -/
theorem C7_counterexample_empty_token_stops :
    get_feedly_articles envC7x 5 = .ok [10] 1 [none] 0
    ∧ ¬(envC7x.pages 0).contToken = none
    ∧ (envC7x.pages 1).items = [11] := by
  refine ⟨by decide, by decide, by decide⟩

/-! ### Claim C8 -/

/-- Under a permanently-401 stream with always-successful refreshes, every
loop iteration refreshes once and retries the same page without advancing
the continuation token, forever. -/
theorem loop_all401 :
    ∀ (fuel reqIdx refIdx : Nat) (token : String) (acc : List Nat) (cont : Option String)
      (bc : Nat),
      get_feedly_articles_loop env401 fuel reqIdx refIdx token 100 acc cont bc
        = .outOfFuel (List.replicate fuel cont) fuel := by
  intro fuel
  induction fuel with
  | zero => intro reqIdx refIdx token acc cont bc; rfl
  | succ fuel ih =>
    intro reqIdx refIdx token acc cont bc
    rw [loop_succ_fresh env401 _ _ _ _ _ _ _ _ (by decide)]
    rw [feedPageStep_401 env401 _ _ _ _ _ _ _ _ "fresh" 100 rfl rfl]
    rw [ih (reqIdx + 1) (refIdx + 1) "fresh" acc cont bc]
    simp only [FetchResult.consLog, FetchResult.addRefresh]
    rw [List.replicate_succ]

/-- C8 (amended): a 401 on a page request triggers a reactive token
refresh and a retry of the same page request without advancing the
continuation token — but there is *no* cap: while the 401 persists and the
refresh call keeps succeeding this repeats once per loop iteration without
bound (`fuel` requests, `fuel` refreshes, every request at the same
unadvanced continuation `none`), and the fetch never turns the repeated 401
into an error. -/
theorem C8_persistent_401_unbounded_retry :
    ∀ fuel : Nat,
      get_feedly_articles env401 fuel = .outOfFuel (List.replicate fuel none) fuel := by
  intro fuel
  unfold get_feedly_articles
  exact loop_all401 fuel 0 0 env401.accessToken0 [] none 0

/-- Witness for C8 (amended) at fuel 4. -/
theorem C8_persistent_401_unbounded_retry_witness :
    get_feedly_articles env401 4 = .outOfFuel [none, none, none, none] 4 := by
  have h := C8_persistent_401_unbounded_retry 4
  exact h.trans (by decide)

/-- C8 counterexample to the claim as stated: after the first reactive
refresh-and-retry of page one, the *second* 401 on the same page is not
fatal — a third request for the same page (same `none` continuation) is
issued with a third refresh, instead of the promised error. -/
theorem C8_counterexample_second_401_retried :
    get_feedly_articles env401 3 = .outOfFuel [none, none, none] 3
    ∧ (env401.pages 0).status = 401
    ∧ (env401.pages 1).status = 401 := by
  refine ⟨by decide, by decide, by decide⟩

/-! ### Claim C9 -/

/-- C9 (amended): a non-auth HTTP failure (4xx/5xx status other than 401)
on page `k`, after `k` good pages, aborts the fetch: the loop escapes with
the raw `requests.HTTPError` — *not* a `FeedlyAPIError` — and the partial
results accumulated from the earlier pages are discarded (the error
outcome carries no article sequence). -/
theorem C9_http_failure_aborts_discards (env : FeedEnv) (fuel k : Nat)
    (hexp : env.now < env.tokenExpiry0)
    (hpre : ∀ i, i < k → (¬(env.pages i).status = 401
        ∧ ¬(400 ≤ (env.pages i).status ∧ (env.pages i).status < 600))
        ∧ ¬ contFalsy (env.pages i).contToken = true)
    (h401 : ¬(env.pages k).status = 401)
    (hlo : 400 ≤ (env.pages k).status) (hhi : (env.pages k).status < 600)
    (hfuel : k < fuel) :
    get_feedly_articles env fuel
      = .err (.httpError (env.pages k).status)
          (none :: (List.range k).map (fun i => (env.pages i).contToken)) 0 := by
  unfold get_feedly_articles
  have h := loop_err_run env k fuel 0 0 env.accessToken0 env.tokenExpiry0 [] none 0 hexp
    (by simpa using hpre) (by simpa using h401) (by simpa using hlo) (by simpa using hhi) hfuel
  simpa using h

/-- Witness for C9 (amended): one good page, then a 500. -/
theorem C9_http_failure_aborts_discards_witness :
    get_feedly_articles env500b 5 = .err (.httpError 500) [none, some "c0"] 0 := by
  have h := C9_http_failure_aborts_discards env500b 5 1 (by decide) (by decide) (by decide)
    (by decide) (by decide) (by decide)
  exact h.trans (by decide)

/-- C9 counterexample to the claim as stated: on a plain 500 the exception
surfaced to the caller is the raw HTTP error, not the module's
`FeedlyAPIError` (`FeedlyAPIError` is raised only by the token-refresh
helper). -/
theorem C9_counterexample_not_feedly_error :
    get_feedly_articles env500 5 = .err (.httpError 500) [none] 0
    ∧ isFeedlyErr (get_feedly_articles env500 5) = false := by
  refine ⟨by decide, by decide⟩
